import Mathlib

/-!
# Election-driven replication coordinator

A shallow embedding of `main.go` of redis-k8s-election: the three leader-election
callbacks (`OnStartedLeading`, `OnStoppedLeading`, `OnNewLeader`), the store
reconfiguration batch `setReplicaOf`, the discovery update `updateLeaderService`
and the start-up code of `main` that derives the addresses.

The collaborators (Kubernetes API, go-redis client, tcpproxy) are not part of the
program. Every call to one of them is recorded, together with the result it
returned, in a list of `Call`s; the results themselves are supplied by an `Env`,
so every theorem holds for all behaviours of the collaborators.
-/

namespace RedisElection

/-! ## Values shared with the collaborators -/

/-- Go `error` value: `none` is `nil`, `some msg` is an error with that message. -/
abbrev GoError := Option String

/-- The go-redis commands that `main.go` queues on a pipeline, with their arguments. -/
inductive Cmd where
  | SlaveOf (host port : String)
  | ClientKillByFilter (keys : List String)
  deriving DecidableEq, Repr

/-- Patch content types of `k8s.io/apimachinery/pkg/types`. -/
inductive PatchType where
  | JSONPatchType
  | MergePatchType
  | StrategicMergePatchType
  | ApplyPatchType
  deriving DecidableEq, Repr

/-- An RFC 6902 JSON Patch operation (`type jsonPatchOp struct`). The only `Value`
the program ever stores is a `map[string]string`, kept here as its key/value pairs. -/
structure jsonPatchOp where
  Op : String
  Path : String
  Value : List (String × String)
  deriving DecidableEq, Repr

/-- One call made to a collaborator, with the error it returned.
* `servicesPatch ns name pt data err`: `k8s.CoreV1().Services(ns).Patch(ctx, name, pt, data, ...)`,
  where `data` is the value handed to `json.Marshal`;
* `txPipelined queued executed err`: `rd.TxPipelined`, with the commands its callback
  queued and whether the batch was executed (sent to the store between MULTI and EXEC);
* `proxyStart err`: `proxy.Start()`;
* `proxyClose err`: `proxy.Close()`. -/
inductive Call where
  | servicesPatch (ns name : String) (pt : PatchType) (data : List jsonPatchOp) (err : GoError)
  | txPipelined (queued : List Cmd) (executed : Bool) (err : GoError)
  | proxyStart (err : GoError)
  | proxyClose (err : GoError)
  deriving DecidableEq, Repr

/-- The behaviour of the collaborators during one callback:
* `patchErr`: result of the `Patch` request;
* `queueErr c`: what `.Err()` reports on command `c` right after it was queued;
* `replyErr c`: the error of command `c` once the batch has been executed;
* `startErr`, `closeErr`: results of `proxy.Start()` and `proxy.Close()`. -/
structure Env where
  patchErr : GoError
  queueErr : Cmd → GoError
  replyErr : Cmd → GoError
  startErr : GoError
  closeErr : GoError

/-- The environment in which every collaborator call succeeds. -/
def Env.ok : Env :=
  { patchErr := none, queueErr := fun _ => none, replyErr := fun _ => none,
    startErr := none, closeErr := none }

/-! ## Start-up code of `main` -/

/-- The command-line flags of `main`. The three required flags are `none` when they
were not given on the command line (`flag.Visit` only visits flags that were set). -/
structure Flags where
  leaderSvcName : Option String
  lockName : Option String
  redisPort : Nat
  leaderPort : Nat
  clusterDomain : String
  headlessSvcName : Option String

/-- The values the callbacks close over: flag values, `hostname` and `namespace`. -/
structure Config where
  leaderSvcName : String
  lockName : String
  redisPort : Nat
  leaderPort : Nat
  clusterDomain : String
  headlessSvcName : String
  hostname : String
  k8sNamespace : String

/-- Go `strconv.FormatUint(n, base)`. -/
def FormatUint (n base : Nat) : String :=
  String.mk (Nat.toDigits base n)

/-- `redisPortStr := strconv.FormatUint(uint64(*redisPort), 10)`. -/
def redisPortStr (cfg : Config) : String :=
  FormatUint cfg.redisPort 10

/-- `leaderListen := ":" + strconv.FormatUint(uint64(*leaderPort), 10)`. -/
def leaderListen (cfg : Config) : String :=
  ":" ++ FormatUint cfg.leaderPort 10

/-- `Addr` of the redis client options: `"localhost:" + redisPortStr`. -/
def redisAddr (cfg : Config) : String :=
  "localhost:" ++ redisPortStr cfg

/-- The single route of the proxy, as (listen address, upstream address):
`proxy.AddRoute(leaderListen, tcpproxy.To("localhost:6379"))`. -/
def proxyRoute (cfg : Config) : String × String :=
  (leaderListen cfg, "localhost:6379")

/-- What `main` has set up when it reaches the leader election. -/
structure Setup where
  cfg : Config
  redisAddr : String
  proxyListen : String
  proxyUpstream : String

/-- The part of `main` before the election: the fatal checks of the flags, in source
order, then the derived addresses. `hostname` is the result of `os.Hostname()` and `ns`
the result of `getKubernetesNamespace()`. A `klog.Fatal` is `Except.error` with its message.
The later fatal checks (in-cluster configuration, namespace file, first ping of the store)
depend on the collaborators only and are left out. (Go iterates the map `requiredFlags`
in an unspecified order; the first missing flag in declaration order is reported here.) -/
def main (flags : Flags) (hostname : Except String String) (ns : String) :
    Except String Setup :=
  match hostname with
  | .error err => .error ("Unable to determine hostname: " ++ err)
  | .ok hostname =>
    match flags.leaderSvcName, flags.lockName, flags.headlessSvcName with
    | none, _, _ => .error "Missing required flag -leader-service"
    | some _, none, _ => .error "Missing required flag -lock"
    | some _, some _, none => .error "Missing required flag -headless-service"
    | some leaderSvcName, some lockName, some headlessSvcName =>
      if flags.redisPort ≤ 0 ∨ flags.redisPort > 0xFFFF then
        .error "Invalid value for -redis-port"
      else if flags.leaderPort ≤ 0 ∨ flags.leaderPort > 0xFFFF then
        .error "Invalid value for -leader-port"
      else
        let cfg : Config :=
          { leaderSvcName := leaderSvcName, lockName := lockName,
            redisPort := flags.redisPort, leaderPort := flags.leaderPort,
            clusterDomain := flags.clusterDomain, headlessSvcName := headlessSvcName,
            hostname := hostname, k8sNamespace := ns }
        .ok { cfg := cfg, redisAddr := redisAddr cfg,
              proxyListen := (proxyRoute cfg).1, proxyUpstream := (proxyRoute cfg).2 }

/-! ## Store reconfiguration and discovery update -/

/-- Queue one command on the pipeline: it is appended to the queued commands, and the
returned error is what `.Err()` reports on it at that moment. -/
def queue (env : Env) (pipe : List Cmd) (c : Cmd) : List Cmd × GoError :=
  (pipe ++ [c], env.queueErr c)

/-- The callback that `setReplicaOf` hands to `TxPipelined`: it queues the three
commands and returns at the first one that reports an error. -/
def setReplicaOfFn (env : Env) (host port : String) (pipe : List Cmd) : List Cmd × GoError :=
  match queue env pipe (Cmd.SlaveOf host port) with
  | (pipe, some err) => (pipe, some err)
  | (pipe, none) =>
    match queue env pipe (Cmd.ClientKillByFilter ["TYPE", "normal"]) with
    | (pipe, some err) => (pipe, some err)
    | (pipe, none) =>
      match queue env pipe (Cmd.ClientKillByFilter ["TYPE", "pubsub"]) with
      | (pipe, some err) => (pipe, some err)
      | (pipe, none) => (pipe, none)

/-- The first error among the executed commands of a batch (go-redis `cmdsFirstErr`). -/
def cmdsFirstErr (env : Env) : List Cmd → GoError
  | [] => none
  | c :: cs =>
    match env.replyErr c with
    | some err => some err
    | none => cmdsFirstErr env cs

/-- The go-redis call `rd.TxPipelined(ctx, fn)`: run the callback on an empty pipeline;
if it returns an error, return that error without executing anything; otherwise execute
the queued commands as one MULTI/EXEC batch and return the first error among them
(an empty pipeline is not executed). -/
def TxPipelined (env : Env) (fn : List Cmd → List Cmd × GoError) : List Call × GoError :=
  match fn [] with
  | (queued, some err) => ([Call.txPipelined queued false (some err)], some err)
  | (queued, none) =>
    if queued.isEmpty then ([Call.txPipelined queued false none], none)
    else ([Call.txPipelined queued true (cmdsFirstErr env queued)], cmdsFirstErr env queued)

/-- The function `setReplicaOf(ctx, rd, host, port)`: the calls it makes and its result. -/
def setReplicaOf (env : Env) (host port : String) : List Call × GoError :=
  TxPipelined env (setReplicaOfFn env host port)

/-- The function `updateLeaderService(ctx, services, svc, pod)`, where `services` is the
service interface of namespace `ns`: one `Patch` call of type `types.JSONPatchType`.
(`json.Marshal` cannot fail on this value, so the `panic` is unreachable.) -/
def updateLeaderService (env : Env) (ns svc pod : String) : List Call × GoError :=
  let patches : List jsonPatchOp :=
    [{ Op := "replace", Path := "/spec/selector",
       Value := [("statefulset.kubernetes.io/pod-name", pod)] }]
  ([Call.servicesPatch ns svc PatchType.JSONPatchType patches env.patchErr], env.patchErr)

/-! ## The leader-election callbacks -/

/-- How a callback ends: it runs to its end, it calls `cancel()` and returns, or it
calls `klog.Fatal`, which exits the process. The string is the logged message. -/
inductive Outcome where
  | returned
  | cancelled (msg : String)
  | fatal (msg : String)
  deriving DecidableEq, Repr

/-- The effects of one callback: the collaborator calls in order, whether the goroutine
waiting on `proxy.Wait()` was spawned, and how the callback ended. -/
structure HandlerResult where
  calls : List Call
  monitor : Bool
  outcome : Outcome
  deriving DecidableEq, Repr

/-- The callback `OnStartedLeading`. The mutex `proxyLock` is held exactly around the
call `proxy.Start()`. -/
def OnStartedLeading (cfg : Config) (env : Env) : HandlerResult :=
  match updateLeaderService env cfg.k8sNamespace cfg.leaderSvcName cfg.hostname with
  | (c1, some err) =>
    { calls := c1, monitor := false,
      outcome := .cancelled ("Failed to update Kubernetes leader service: " ++ err) }
  | (c1, none) =>
    match setReplicaOf env "NO" "ONE" with
    | (c2, some err) =>
      { calls := c1 ++ c2, monitor := false,
        outcome := .cancelled ("Failed to remove replication config from Redis server: " ++ err) }
    | (c2, none) =>
      match env.startErr with
      | some proxyErr =>
        { calls := c1 ++ c2 ++ [Call.proxyStart (some proxyErr)], monitor := false,
          outcome := .cancelled ("Failed to start leader TCP proxy: " ++ proxyErr) }
      | none =>
        { calls := c1 ++ c2 ++ [Call.proxyStart none], monitor := true,
          outcome := .returned }

/-- The callback `OnStoppedLeading`. The mutex `proxyLock` is held exactly around the
call `proxy.Close()`. -/
def OnStoppedLeading (env : Env) : HandlerResult :=
  match env.closeErr with
  | some proxyErr =>
    { calls := [Call.proxyClose (some proxyErr)], monitor := false,
      outcome := .fatal ("Failed to stop leader TCP proxy: " ++ proxyErr) }
  | none =>
    { calls := [Call.proxyClose none], monitor := false, outcome := .returned }

/-- The address `podDNS` built by `OnNewLeader`:
`fmt.Sprintf("%s.%s.%s.svc.%s", identity, *headlessSvcName, namespace, *clusterDomain)`. -/
def podDNS (cfg : Config) (identity : String) : String :=
  identity ++ "." ++ cfg.headlessSvcName ++ "." ++ cfg.k8sNamespace ++ ".svc." ++ cfg.clusterDomain

/-- The callback `OnNewLeader(identity)`. -/
def OnNewLeader (cfg : Config) (env : Env) (identity : String) : HandlerResult :=
  if identity = cfg.hostname then
    { calls := [], monitor := false, outcome := .returned }
  else
    match setReplicaOf env (podDNS cfg identity) (redisPortStr cfg) with
    | (c, some err) =>
      { calls := c, monitor := false,
        outcome := .fatal ("Failed to replicate new leader: " ++ err) }
    | (c, none) => { calls := c, monitor := false, outcome := .returned }

/-- The body of the goroutine spawned by `OnStartedLeading`, given the result of
`proxy.Wait()`: `if err := proxy.Wait(); err != nil { klog.Fatal(...) }`. -/
def monitorWait (waitErr : GoError) : Outcome :=
  match waitErr with
  | some err => .fatal ("Leader TCP proxy failed: " ++ err)
  | none => .returned

/-! ## The coordinator as a state machine -/

/-- The two states of the relay (`RelayState`). -/
inductive RelayState where
  | Stopped
  | Running
  deriving DecidableEq, Repr

/-- The contract of the Relay Controller: a `Start` that succeeds leaves the relay
running, a `Close` that succeeds leaves it stopped, and no other call (in particular no
failed `Start` or `Close`) changes its state. -/
def relayAfter (r : RelayState) : Call → RelayState
  | Call.proxyStart none => RelayState.Running
  | Call.proxyClose none => RelayState.Stopped
  | _ => r

/-- The events of the election client (`LeaderEvent`), one per callback. -/
inductive LeaderEvent where
  | Acquired
  | Lost
  | Observed (identity : String)
  deriving DecidableEq, Repr

/-- The state of the process:
* `relay`: the relay as left by the last `Start` or `Close` that took effect;
* `cancelled`: `cancel()` has been called;
* `exited`: a `klog.Fatal` has exited the process;
* `monitors`: the goroutines blocked in `proxy.Wait()`;
* `calls`: all collaborator calls made so far. -/
structure State where
  relay : RelayState
  cancelled : Bool
  exited : Bool
  monitors : Nat
  calls : List Call
  deriving DecidableEq, Repr

/-- The state `main` has built when the election starts: the proxy is not started. -/
def State.init : State :=
  { relay := RelayState.Stopped, cancelled := false, exited := false, monitors := 0, calls := [] }

/-- The callback that the election client runs for an event. -/
def handle (cfg : Config) : LeaderEvent → Env → HandlerResult
  | LeaderEvent.Acquired, env => OnStartedLeading cfg env
  | LeaderEvent.Lost, env => OnStoppedLeading env
  | LeaderEvent.Observed identity, env => OnNewLeader cfg env identity

/-- Whether the outcome is a return after `cancel()`. -/
def Outcome.isCancelled : Outcome → Bool
  | Outcome.cancelled _ => true
  | _ => false

/-- Whether the callback ran to its end. -/
def Outcome.isReturned : Outcome → Bool
  | Outcome.returned => true
  | _ => false

/-- Whether the outcome is a `klog.Fatal`. -/
def Outcome.isFatal : Outcome → Bool
  | Outcome.fatal _ => true
  | _ => false

/-- The state after a callback with the given effects has run. -/
def State.apply (s : State) (r : HandlerResult) : State :=
  { relay := r.calls.foldl relayAfter s.relay,
    cancelled := s.cancelled || r.outcome.isCancelled,
    exited := r.outcome.isFatal,
    monitors := if r.monitor then s.monitors + 1 else s.monitors,
    calls := s.calls ++ r.calls }

/-- What the process reacts to: an election event, handled under some behaviour of the
collaborators, or the return of `proxy.Wait()` in a monitoring goroutine. -/
inductive Input where
  | event (e : LeaderEvent) (env : Env)
  | waitReturned (err : GoError)

/-- One step of the process. After `klog.Fatal` nothing runs any more; the return of
`proxy.Wait()` is observed by one monitoring goroutine, if there is any. -/
def step (cfg : Config) (s : State) : Input → State
  | Input.event e env => if s.exited then s else s.apply (handle cfg e env)
  | Input.waitReturned err =>
    if s.exited ∨ s.monitors = 0 then s
    else { s with exited := (monitorWait err).isFatal, monitors := s.monitors - 1 }

/-- Process the inputs one at a time, in order. -/
def run (cfg : Config) (s : State) (inputs : List Input) : State :=
  inputs.foldl (step cfg) s

/-- An election event processed under a given behaviour of the collaborators. -/
def toInput (p : LeaderEvent × Env) : Input :=
  Input.event p.1 p.2

/-! ## Vocabulary of the specification -/

/-- The directive the coordinator gives to the store (`ReplicationDirective`). -/
inductive ReplicationDirective where
  | BecomePrimary
  | ReplicateFrom (host port : String)
  deriving DecidableEq, Repr

/-- The arguments with which `setReplicaOf` is called for a directive: `OnStartedLeading`
passes `"NO", "ONE"` for `BecomePrimary`, `OnNewLeader` passes the peer address. -/
def ReplicationDirective.args : ReplicationDirective → String × String
  | ReplicationDirective.BecomePrimary => ("NO", "ONE")
  | ReplicationDirective.ReplicateFrom host port => (host, port)

/-- The three steps of the store reconfiguration batch, in order: set the replication
target, kill normal clients, kill pubsub clients. -/
def storeBatch (host port : String) : List Cmd :=
  [Cmd.SlaveOf host port, Cmd.ClientKillByFilter ["TYPE", "normal"],
   Cmd.ClientKillByFilter ["TYPE", "pubsub"]]

/-- A step of the batch fails: the command reports an error when it is queued, or its
reply is an error when the batch is executed. -/
def stepFails (env : Env) (c : Cmd) : Prop :=
  env.queueErr c ≠ none ∨ env.replyErr c ≠ none

/-- The operations of the patch document of a call (none for a call that is not a
patch request). -/
def Call.patchOps : Call → List jsonPatchOp
  | Call.servicesPatch _ _ _ data _ => data
  | _ => []

/-- Whether the call is a `proxy.Start()`. -/
def Call.isProxyStart : Call → Bool
  | Call.proxyStart _ => true
  | _ => false

/-- Whether the call is a store call (`TxPipelined`). -/
def Call.isStore : Call → Bool
  | Call.txPipelined _ _ _ => true
  | _ => false

/-- An event is fully processed when its callback ran all its steps to the end, that is,
it neither returned early after `cancel()` nor exited the process with `klog.Fatal`. -/
def fullyProcessed (cfg : Config) (p : LeaderEvent × Env) : Bool :=
  (handle cfg p.1 p.2).outcome.isReturned

/-- The events that are processed at all: those up to and including the first one whose
callback exits the process. -/
def processed (cfg : Config) : List (LeaderEvent × Env) → List (LeaderEvent × Env)
  | [] => []
  | p :: ps => if (handle cfg p.1 p.2).outcome.isFatal then [p] else p :: processed cfg ps

/-- The most recent event that was fully processed, if there is one. -/
def lastFullyProcessed (cfg : Config) (es : List (LeaderEvent × Env)) : Option LeaderEvent :=
  (((processed cfg es).filter (fullyProcessed cfg)).map Prod.fst).getLast?

/-- The relay state that a fully processed event (if any) leaves behind, starting
from `r`. -/
def relayTarget (r : RelayState) : Option LeaderEvent → RelayState
  | some LeaderEvent.Acquired => RelayState.Running
  | some LeaderEvent.Lost => RelayState.Stopped
  | _ => r

/-! ## Sample data -/

/-- A sample configuration: node `pod-0` of a stateful set in namespace `default`, with
the store on port 6380. -/
def sampleConfig : Config :=
  { leaderSvcName := "redis-leader", lockName := "redis-lock", redisPort := 6380,
    leaderPort := 6378, clusterDomain := "cluster.local", headlessSvcName := "redis-headless",
    hostname := "pod-0", k8sNamespace := "default" }

/-- The command line `-leader-service redis-leader -lock redis-lock
-headless-service redis-headless -redis-port 6380`. -/
def sampleFlags : Flags :=
  { leaderSvcName := some "redis-leader", lockName := some "redis-lock", redisPort := 6380,
    leaderPort := 6378, clusterDomain := "cluster.local",
    headlessSvcName := some "redis-headless" }

/-- A behaviour in which only the discovery update fails. -/
def patchFails : Env :=
  { Env.ok with patchErr := some "services not found" }

/-- A behaviour in which only the reply to the given command is an error. -/
def replyFails (c : Cmd) : Env :=
  { Env.ok with replyErr := fun d => if d = c then some "ERR" else none }


/-! ## Auxiliary facts -/

/-- The result of `setReplicaOf`, by cases on the errors reported at queue time. -/
theorem setReplicaOf_eq (env : Env) (host port : String) :
    setReplicaOf env host port =
      match env.queueErr (Cmd.SlaveOf host port) with
      | some err => ([Call.txPipelined [Cmd.SlaveOf host port] false (some err)], some err)
      | none =>
        match env.queueErr (Cmd.ClientKillByFilter ["TYPE", "normal"]) with
        | some err =>
          ([Call.txPipelined [Cmd.SlaveOf host port, Cmd.ClientKillByFilter ["TYPE", "normal"]]
              false (some err)], some err)
        | none =>
          match env.queueErr (Cmd.ClientKillByFilter ["TYPE", "pubsub"]) with
          | some err => ([Call.txPipelined (storeBatch host port) false (some err)], some err)
          | none =>
            ([Call.txPipelined (storeBatch host port) true
                (cmdsFirstErr env (storeBatch host port))],
              cmdsFirstErr env (storeBatch host port)) := by
  unfold setReplicaOf TxPipelined setReplicaOfFn queue storeBatch
  cases h1 : env.queueErr (Cmd.SlaveOf host port) with
  | some e => simp
  | none =>
    cases h2 : env.queueErr (Cmd.ClientKillByFilter ["TYPE", "normal"]) with
    | some e => simp
    | none =>
      cases h3 : env.queueErr (Cmd.ClientKillByFilter ["TYPE", "pubsub"]) with
      | some e => simp
      | none => simp

/-- The function `setReplicaOf` makes exactly one call, a `TxPipelined`, and the batch is
executed only if it holds the three commands and the result is the first reply error. -/
theorem setReplicaOf_shape (env : Env) (host port : String) :
    ∃ queued executed,
      (setReplicaOf env host port).1 =
        [Call.txPipelined queued executed (setReplicaOf env host port).2] ∧
      (executed = true → queued = storeBatch host port) ∧
      (executed = false → (setReplicaOf env host port).2 ≠ none) ∧
      ((setReplicaOf env host port).2 = none → executed = true) ∧
      (∃ rest, queued = Cmd.SlaveOf host port :: rest) := by
  rw [setReplicaOf_eq]
  cases h1 : env.queueErr (Cmd.SlaveOf host port) with
  | some e => exact ⟨_, _, rfl, by simp, by simp, by simp, ⟨_, rfl⟩⟩
  | none =>
    cases h2 : env.queueErr (Cmd.ClientKillByFilter ["TYPE", "normal"]) with
    | some e => exact ⟨_, _, rfl, by simp, by simp, by simp, ⟨_, rfl⟩⟩
    | none =>
      cases h3 : env.queueErr (Cmd.ClientKillByFilter ["TYPE", "pubsub"]) with
      | some e => exact ⟨_, _, rfl, by simp, by simp, by simp, ⟨_, rfl⟩⟩
      | none => exact ⟨_, _, rfl, by simp, by simp, by simp, ⟨_, rfl⟩⟩

/-- A store call does not change the state of the relay. -/
theorem foldl_relayAfter_setReplicaOf (env : Env) (host port : String) (r : RelayState) :
    (setReplicaOf env host port).1.foldl relayAfter r = r := by
  obtain ⟨q, ex, h, -⟩ := setReplicaOf_shape env host port
  rw [h]
  rfl

/-- The first reply error of a batch is an error as soon as one command of it fails. -/
theorem cmdsFirstErr_ne_none (env : Env) (cs : List Cmd) (c : Cmd) (hc : c ∈ cs)
    (h : env.replyErr c ≠ none) : cmdsFirstErr env cs ≠ none := by
  induction cs with
  | nil => simp at hc
  | cons d ds ih =>
    unfold cmdsFirstErr
    cases hd : env.replyErr d with
    | some e => simp
    | none =>
      simp only
      apply ih
      rcases List.mem_cons.mp hc with rfl | hmem
      · exact absurd hd h
      · exact hmem

/-- A failing step of the batch makes `setReplicaOf` return an error. -/
theorem setReplicaOf_err_of_stepFails (env : Env) (host port : String) (c : Cmd)
    (hc : c ∈ storeBatch host port) (hfail : stepFails env c) :
    (setReplicaOf env host port).2 ≠ none := by
  rw [setReplicaOf_eq]
  cases h1 : env.queueErr (Cmd.SlaveOf host port) with
  | some e => simp
  | none =>
    cases h2 : env.queueErr (Cmd.ClientKillByFilter ["TYPE", "normal"]) with
    | some e => simp
    | none =>
      cases h3 : env.queueErr (Cmd.ClientKillByFilter ["TYPE", "pubsub"]) with
      | some e => simp
      | none =>
        simp only
        rcases hfail with hq | hr
        · exfalso
          simp only [storeBatch, List.mem_cons, List.mem_singleton, List.not_mem_nil,
            or_false] at hc
          rcases hc with rfl | rfl | rfl
          · exact hq h1
          · exact hq h2
          · exact hq h3
        · exact cmdsFirstErr_ne_none env _ c hc hr

/-- The effects of `OnStartedLeading`, by cases on the results of its three steps. -/
theorem OnStartedLeading_eq (cfg : Config) (env : Env) :
    OnStartedLeading cfg env =
      match env.patchErr with
      | some err =>
        { calls := (updateLeaderService env cfg.k8sNamespace cfg.leaderSvcName cfg.hostname).1,
          monitor := false,
          outcome := Outcome.cancelled ("Failed to update Kubernetes leader service: " ++ err) }
      | none =>
        match (setReplicaOf env "NO" "ONE").2 with
        | some err =>
          { calls := (updateLeaderService env cfg.k8sNamespace cfg.leaderSvcName cfg.hostname).1
              ++ (setReplicaOf env "NO" "ONE").1,
            monitor := false,
            outcome := Outcome.cancelled
              ("Failed to remove replication config from Redis server: " ++ err) }
        | none =>
          match env.startErr with
          | some err =>
            { calls := (updateLeaderService env cfg.k8sNamespace cfg.leaderSvcName cfg.hostname).1
                ++ (setReplicaOf env "NO" "ONE").1 ++ [Call.proxyStart (some err)],
              monitor := false,
              outcome := Outcome.cancelled ("Failed to start leader TCP proxy: " ++ err) }
          | none =>
            { calls := (updateLeaderService env cfg.k8sNamespace cfg.leaderSvcName cfg.hostname).1
                ++ (setReplicaOf env "NO" "ONE").1 ++ [Call.proxyStart none],
              monitor := true,
              outcome := Outcome.returned } := by
  unfold OnStartedLeading updateLeaderService
  cases hp : env.patchErr with
  | some e => rfl
  | none =>
    simp only
    rcases hs : setReplicaOf env "NO" "ONE" with ⟨c2, err⟩
    cases err with
    | some e => rfl
    | none => rfl

/-- No call of `setReplicaOf` is a `proxy.Start()`. -/
theorem setReplicaOf_no_proxyStart (env : Env) (host port : String) :
    ∀ c ∈ (setReplicaOf env host port).1, c.isProxyStart = false := by
  obtain ⟨q, ex, h, -⟩ := setReplicaOf_shape env host port
  rw [h]
  intro c hc
  rw [List.mem_singleton.mp hc]
  rfl


/-! ## Acquired: order of the steps and failures -/

/-- C2: when the discovery update, the store batch and the relay start all succeed,
`OnStartedLeading` makes exactly three collaborator calls, in this order: the patch of
the leader service `leaderSvcName` selecting this node's own `hostname`, the store batch
`SLAVEOF NO ONE` with the two client kills (BecomePrimary), and `proxy.Start()`. It then
spawns the goroutine that waits on the proxy and returns without cancelling. -/
theorem OnStartedLeading_success_order (cfg : Config) (env : Env)
    (hpatch : (updateLeaderService env cfg.k8sNamespace cfg.leaderSvcName cfg.hostname).2 = none)
    (hstore : (setReplicaOf env "NO" "ONE").2 = none)
    (hstart : env.startErr = none) :
    OnStartedLeading cfg env =
      { calls :=
          [Call.servicesPatch cfg.k8sNamespace cfg.leaderSvcName PatchType.JSONPatchType
             [{ Op := "replace", Path := "/spec/selector",
                Value := [("statefulset.kubernetes.io/pod-name", cfg.hostname)] }] none,
           Call.txPipelined
             [Cmd.SlaveOf "NO" "ONE", Cmd.ClientKillByFilter ["TYPE", "normal"],
              Cmd.ClientKillByFilter ["TYPE", "pubsub"]] true none,
           Call.proxyStart none],
        monitor := true,
        outcome := Outcome.returned } := by
  have hp : env.patchErr = none := hpatch
  obtain ⟨q, ex, hcalls, hex, -, hnone, -⟩ := setReplicaOf_shape env "NO" "ONE"
  have hq : q = storeBatch "NO" "ONE" := hex (hnone hstore)
  rw [OnStartedLeading_eq, hp]
  simp only [hstore, hstart, hcalls, hnone hstore, hq, updateLeaderService, hp, storeBatch,
    List.singleton_append, List.cons_append, List.nil_append]

/-- Witness for C2 on the sample configuration, every call succeeding. -/
theorem OnStartedLeading_success_order_witness :
    (OnStartedLeading sampleConfig Env.ok).calls =
      [Call.servicesPatch "default" "redis-leader" PatchType.JSONPatchType
         [{ Op := "replace", Path := "/spec/selector",
            Value := [("statefulset.kubernetes.io/pod-name", "pod-0")] }] none,
       Call.txPipelined
         [Cmd.SlaveOf "NO" "ONE", Cmd.ClientKillByFilter ["TYPE", "normal"],
          Cmd.ClientKillByFilter ["TYPE", "pubsub"]] true none,
       Call.proxyStart none] :=
  congrArg HandlerResult.calls (OnStartedLeading_success_order sampleConfig Env.ok rfl rfl rfl)

/-- What `OnStartedLeading` does when the discovery update succeeds and the store batch
fails: it ends by calling `cancel()`, without `proxy.Start()` and without the monitoring
goroutine. -/
theorem OnStartedLeading_of_store_failure (cfg : Config) (env : Env)
    (hpatch : env.patchErr = none) (hstore : (setReplicaOf env "NO" "ONE").2 ≠ none) :
    (OnStartedLeading cfg env).outcome.isCancelled = true ∧
    (OnStartedLeading cfg env).monitor = false ∧
    ∀ c ∈ (OnStartedLeading cfg env).calls, c.isProxyStart = false := by
  rw [OnStartedLeading_eq, hpatch]
  revert hstore
  cases (setReplicaOf env "NO" "ONE").2 with
  | none => intro h; exact absurd rfl h
  | some e =>
    intro _
    refine ⟨rfl, rfl, ?_⟩
    intro c hc
    simp only [updateLeaderService, List.singleton_append, List.mem_cons] at hc
    rcases hc with rfl | hc
    · rfl
    · exact setReplicaOf_no_proxyStart env "NO" "ONE" c hc

/-- C3: if the discovery update, the BecomePrimary batch or the relay start fails,
`OnStartedLeading` ends by calling `cancel()`, spawns no monitoring goroutine and leaves
the relay as it was; after a failed discovery update it makes neither a store call nor
a `proxy.Start()`, and after a failed BecomePrimary it makes no `proxy.Start()`. -/
theorem OnStartedLeading_failure_cancels (cfg : Config) (env : Env)
    (hfail : (updateLeaderService env cfg.k8sNamespace cfg.leaderSvcName cfg.hostname).2 ≠ none
      ∨ (setReplicaOf env "NO" "ONE").2 ≠ none ∨ env.startErr ≠ none) :
    (OnStartedLeading cfg env).outcome.isCancelled = true ∧
    (OnStartedLeading cfg env).monitor = false ∧
    ((updateLeaderService env cfg.k8sNamespace cfg.leaderSvcName cfg.hostname).2 ≠ none →
      ∀ c ∈ (OnStartedLeading cfg env).calls, c.isStore = false ∧ c.isProxyStart = false) ∧
    ((setReplicaOf env "NO" "ONE").2 ≠ none →
      ∀ c ∈ (OnStartedLeading cfg env).calls, c.isProxyStart = false) ∧
    (∀ r, (OnStartedLeading cfg env).calls.foldl relayAfter r = r) := by
  have hup : (updateLeaderService env cfg.k8sNamespace cfg.leaderSvcName cfg.hostname).2
      = env.patchErr := rfl
  rw [hup] at hfail ⊢
  rw [OnStartedLeading_eq]
  cases hp : env.patchErr with
  | some e =>
    refine ⟨rfl, rfl, ?_, ?_, ?_⟩
    · intro _ c hc
      simp only [updateLeaderService, List.mem_singleton] at hc
      subst hc
      exact ⟨rfl, rfl⟩
    · intro _ c hc
      simp only [updateLeaderService, List.mem_singleton] at hc
      subst hc
      rfl
    · intro r
      rfl
  | none =>
    cases hs : (setReplicaOf env "NO" "ONE").2 with
    | some e =>
      refine ⟨rfl, rfl, ?_, ?_, ?_⟩
      · intro h
        exact absurd rfl h
      · intro _ c hc
        simp only [updateLeaderService, List.singleton_append, List.mem_cons] at hc
        rcases hc with rfl | hc
        · rfl
        · exact setReplicaOf_no_proxyStart env "NO" "ONE" c hc
      · intro r
        simp only [updateLeaderService, List.singleton_append, List.foldl_cons]
        exact foldl_relayAfter_setReplicaOf env "NO" "ONE" _
    | none =>
      cases hst : env.startErr with
      | some e =>
        refine ⟨rfl, rfl, ?_, ?_, ?_⟩
        · intro h
          exact absurd rfl h
        · intro h
          exact absurd rfl h
        · intro r
          simp only [updateLeaderService, List.singleton_append, List.cons_append,
            List.foldl_cons, List.foldl_append, List.foldl_nil]
          rw [foldl_relayAfter_setReplicaOf]
          rfl
      | none =>
        rw [hp, hs, hst] at hfail
        simp at hfail

/-- Witness for C3: the discovery update fails on the sample configuration. -/
theorem OnStartedLeading_failure_cancels_witness :
    (OnStartedLeading sampleConfig patchFails).outcome.isCancelled = true ∧
    (OnStartedLeading sampleConfig patchFails).calls =
      [Call.servicesPatch "default" "redis-leader" PatchType.JSONPatchType
         [{ Op := "replace", Path := "/spec/selector",
            Value := [("statefulset.kubernetes.io/pod-name", "pod-0")] }]
         (some "services not found")] :=
  ⟨(OnStartedLeading_failure_cancels sampleConfig patchFails (Or.inl (by decide))).1, by decide⟩


/-! ## Observed: replication from the new leader -/

/-- The effects of `OnNewLeader` for an identity other than this node's own. -/
theorem OnNewLeader_eq_of_ne (cfg : Config) (env : Env) (identity : String)
    (h : identity ≠ cfg.hostname) :
    (OnNewLeader cfg env identity).calls
        = (setReplicaOf env (podDNS cfg identity) (redisPortStr cfg)).1 ∧
    (OnNewLeader cfg env identity).monitor = false ∧
    (OnNewLeader cfg env identity).outcome =
      match (setReplicaOf env (podDNS cfg identity) (redisPortStr cfg)).2 with
      | some err => Outcome.fatal ("Failed to replicate new leader: " ++ err)
      | none => Outcome.returned := by
  unfold OnNewLeader
  rw [if_neg h]
  rcases setReplicaOf env (podDNS cfg identity) (redisPortStr cfg) with ⟨c, err⟩
  cases err with
  | some e => exact ⟨rfl, rfl, rfl⟩
  | none => exact ⟨rfl, rfl, rfl⟩

/-- C4: when the observed identity is this node's own `hostname`, `OnNewLeader` makes no
collaborator call at all (so `setReplicaOf` is not called and no store command is sent) and
returns. -/
theorem OnNewLeader_self_no_call (cfg : Config) (env : Env) (identity : String)
    (h : identity = cfg.hostname) :
    OnNewLeader cfg env identity = { calls := [], monitor := false, outcome := Outcome.returned } := by
  unfold OnNewLeader
  rw [if_pos h]

/-- Witness for C4: node `pod-0` observes itself as leader while the store would fail. -/
theorem OnNewLeader_self_no_call_witness :
    (OnNewLeader sampleConfig (replyFails (Cmd.SlaveOf "NO" "ONE")) "pod-0").calls = [] :=
  congrArg HandlerResult.calls
    (OnNewLeader_self_no_call sampleConfig (replyFails (Cmd.SlaveOf "NO" "ONE")) "pod-0" rfl)

/-- C5: for an identity other than this node's own, `OnNewLeader` makes exactly one
collaborator call, the `TxPipelined` of `setReplicaOf`, whose first command sets the
replication target to the host `identity.headlessSvcName.namespace.svc.clusterDomain` and
the port `FormatUint redisPort 10`; for `pod-1`, `redis-headless`, `default` and
`cluster.local` the host is `pod-1.redis-headless.default.svc.cluster.local`, and the
port 6379 is rendered as `6379`. -/
theorem OnNewLeader_replicates_from_peer (cfg : Config) (env : Env) (identity : String)
    (h : identity ≠ cfg.hostname) :
    (∃ rest executed err,
      (OnNewLeader cfg env identity).calls =
        [Call.txPipelined
          (Cmd.SlaveOf
              (identity ++ "." ++ cfg.headlessSvcName ++ "." ++ cfg.k8sNamespace ++ ".svc."
                ++ cfg.clusterDomain)
              (FormatUint cfg.redisPort 10) :: rest)
          executed err] ∧
      (executed = true →
        rest = [Cmd.ClientKillByFilter ["TYPE", "normal"],
                Cmd.ClientKillByFilter ["TYPE", "pubsub"]])) ∧
    podDNS { cfg with headlessSvcName := "redis-headless", k8sNamespace := "default",
                      clusterDomain := "cluster.local" } "pod-1"
      = "pod-1.redis-headless.default.svc.cluster.local" ∧
    redisPortStr { cfg with redisPort := 6379 } = "6379" := by
  refine ⟨?_, ?_, ?_⟩
  rotate_left
  · show "pod-1" ++ "." ++ "redis-headless" ++ "." ++ "default" ++ ".svc." ++ "cluster.local"
      = "pod-1.redis-headless.default.svc.cluster.local"
    decide
  · show FormatUint 6379 10 = "6379"
    decide
  obtain ⟨hcalls, -, -⟩ := OnNewLeader_eq_of_ne cfg env identity h
  obtain ⟨q, ex, hq, hex, -, -, rest, hrest⟩ :=
    setReplicaOf_shape env (podDNS cfg identity) (redisPortStr cfg)
  refine ⟨rest, ex, (setReplicaOf env (podDNS cfg identity) (redisPortStr cfg)).2, ?_, ?_⟩
  · rw [hcalls, hq, hrest]
    rfl
  · intro hx
    have := hex hx
    rw [hrest] at this
    simpa [storeBatch] using this

/-- Witness for C5: node `pod-0` observes `pod-1` as leader. -/
theorem OnNewLeader_replicates_from_peer_witness :
    "pod-1" ≠ sampleConfig.hostname ∧
    ∃ rest executed err,
      (OnNewLeader sampleConfig Env.ok "pod-1").calls =
        [Call.txPipelined
          (Cmd.SlaveOf "pod-1.redis-headless.default.svc.cluster.local" "6380" :: rest)
          executed err] :=
  ⟨by decide,
    (OnNewLeader_replicates_from_peer sampleConfig Env.ok "pod-1" (by decide)).1.imp
      (fun _ hr => hr.imp (fun _ he => he.imp (fun _ hc => hc.1)))⟩


/-! ## The store reconfiguration batch -/

/-- C10: for every host and port, `setReplicaOf` makes a single `TxPipelined` call and
nothing else; a batch that is executed holds exactly the three commands `SLAVEOF host port`,
`CLIENT KILL TYPE normal`, `CLIENT KILL TYPE pubsub`, in this order; when the pipeline
accepts the commands it queues (as a go-redis pipeline does, which only buffers them), the
batch is executed with exactly these three commands; and the store call of
`OnStartedLeading` (BecomePrimary) is this same function at the target `NO`, `ONE`. -/
theorem setReplicaOf_batch (env : Env) (host port : String) :
    (∃ queued executed err,
      (setReplicaOf env host port).1 = [Call.txPipelined queued executed err] ∧
      (executed = true →
        queued = [Cmd.SlaveOf host port, Cmd.ClientKillByFilter ["TYPE", "normal"],
                  Cmd.ClientKillByFilter ["TYPE", "pubsub"]])) ∧
    ((∀ c ∈ storeBatch host port, env.queueErr c = none) →
      ∃ err, (setReplicaOf env host port).1 =
        [Call.txPipelined
          [Cmd.SlaveOf host port, Cmd.ClientKillByFilter ["TYPE", "normal"],
           Cmd.ClientKillByFilter ["TYPE", "pubsub"]] true err]) ∧
    (∀ cfg : Config, env.patchErr = none →
      ∃ rest, (OnStartedLeading cfg env).calls
        = (updateLeaderService env cfg.k8sNamespace cfg.leaderSvcName cfg.hostname).1
            ++ (setReplicaOf env "NO" "ONE").1 ++ rest) := by
  refine ⟨?_, ?_, ?_⟩
  · obtain ⟨q, ex, hq, hex, -⟩ := setReplicaOf_shape env host port
    exact ⟨q, ex, _, hq, hex⟩
  · intro hq
    have h1 := hq (Cmd.SlaveOf host port) (by simp [storeBatch])
    have h2 := hq (Cmd.ClientKillByFilter ["TYPE", "normal"]) (by simp [storeBatch])
    have h3 := hq (Cmd.ClientKillByFilter ["TYPE", "pubsub"]) (by simp [storeBatch])
    rw [setReplicaOf_eq, h1, h2, h3]
    exact ⟨_, rfl⟩
  · intro cfg hp
    rw [OnStartedLeading_eq, hp]
    cases (setReplicaOf env "NO" "ONE").2 with
    | some e => exact ⟨[], (List.append_nil _).symm⟩
    | none =>
      cases env.startErr with
      | some e => exact ⟨[Call.proxyStart (some e)], rfl⟩
      | none => exact ⟨[Call.proxyStart none], rfl⟩

/-- Witness for C10: the batch sent for host `pod-1.example` and port `6379` when the
pipeline accepts every command. -/
theorem setReplicaOf_batch_witness :
    (∀ c ∈ storeBatch "pod-1.example" "6379", Env.ok.queueErr c = none) ∧
    ∃ err, (setReplicaOf Env.ok "pod-1.example" "6379").1 =
      [Call.txPipelined
        [Cmd.SlaveOf "pod-1.example" "6379", Cmd.ClientKillByFilter ["TYPE", "normal"],
         Cmd.ClientKillByFilter ["TYPE", "pubsub"]] true err] :=
  ⟨fun _ _ => rfl,
    (setReplicaOf_batch Env.ok "pod-1.example" "6379").2.1 (fun _ _ => rfl)⟩

/-- C6, as stated, fails for the handler of ReplicateFrom: when the first step of the
batch fails while node `pod-0` observes `pod-1`, `setReplicaOf` returns an error, but
`OnNewLeader` does not call `cancel()`; it ends in `klog.Fatal`. -/
theorem OnNewLeader_step_failure_not_cancelled :
    stepFails (replyFails (Cmd.SlaveOf "pod-1.redis-headless.default.svc.cluster.local" "6380"))
      (Cmd.SlaveOf "pod-1.redis-headless.default.svc.cluster.local" "6380") ∧
    (setReplicaOf (replyFails (Cmd.SlaveOf "pod-1.redis-headless.default.svc.cluster.local" "6380"))
      "pod-1.redis-headless.default.svc.cluster.local" "6380").2 = some "ERR" ∧
    (OnNewLeader sampleConfig
      (replyFails (Cmd.SlaveOf "pod-1.redis-headless.default.svc.cluster.local" "6380"))
      "pod-1").outcome = Outcome.fatal "Failed to replicate new leader: ERR" ∧
    (OnNewLeader sampleConfig
      (replyFails (Cmd.SlaveOf "pod-1.redis-headless.default.svc.cluster.local" "6380"))
      "pod-1").outcome.isCancelled = false := by
  refine ⟨Or.inr (by decide), by decide, by decide, by decide⟩

/-- C6 (amended): for every replication directive and every step of its batch, if the
step fails then `setReplicaOf` returns an error; on that error `OnStartedLeading`
(BecomePrimary) ends by calling `cancel()` without starting the relay or the monitoring
goroutine, and `OnNewLeader` (ReplicateFrom) ends in `klog.Fatal`, which exits the process
without calling `cancel()`. -/
theorem setReplicaOf_step_failure (cfg : Config) (env : Env) (d : ReplicationDirective)
    (c : Cmd) (hc : c ∈ storeBatch d.args.1 d.args.2) (hfail : stepFails env c) :
    (setReplicaOf env d.args.1 d.args.2).2 ≠ none ∧
    (d = ReplicationDirective.BecomePrimary → env.patchErr = none →
      (OnStartedLeading cfg env).outcome.isCancelled = true ∧
      (OnStartedLeading cfg env).monitor = false ∧
      ∀ x ∈ (OnStartedLeading cfg env).calls, x.isProxyStart = false) ∧
    (∀ identity, identity ≠ cfg.hostname →
      d = ReplicationDirective.ReplicateFrom (podDNS cfg identity) (redisPortStr cfg) →
      (OnNewLeader cfg env identity).outcome.isFatal = true ∧
      (OnNewLeader cfg env identity).outcome.isCancelled = false ∧
      (OnNewLeader cfg env identity).calls
        = (setReplicaOf env (podDNS cfg identity) (redisPortStr cfg)).1) := by
  have herr := setReplicaOf_err_of_stepFails env d.args.1 d.args.2 c hc hfail
  refine ⟨herr, ?_, ?_⟩
  · intro hd hp
    subst hd
    exact OnStartedLeading_of_store_failure cfg env hp herr
  · intro identity hne hd
    subst hd
    obtain ⟨hcalls, -, hout⟩ := OnNewLeader_eq_of_ne cfg env identity hne
    refine ⟨?_, ?_, hcalls⟩
    · rw [hout]
      revert herr
      simp only [ReplicationDirective.args]
      cases (setReplicaOf env (podDNS cfg identity) (redisPortStr cfg)).2 with
      | some e => intro _; rfl
      | none => intro h; exact absurd rfl h
    · rw [hout]
      cases (setReplicaOf env (podDNS cfg identity) (redisPortStr cfg)).2 with
      | some e => rfl
      | none => rfl

/-- Witness for C6 (amended): BecomePrimary whose second step (kill normal clients)
fails. -/
theorem setReplicaOf_step_failure_witness :
    Cmd.ClientKillByFilter ["TYPE", "normal"] ∈ storeBatch "NO" "ONE" ∧
    stepFails (replyFails (Cmd.ClientKillByFilter ["TYPE", "normal"]))
      (Cmd.ClientKillByFilter ["TYPE", "normal"]) ∧
    (setReplicaOf (replyFails (Cmd.ClientKillByFilter ["TYPE", "normal"])) "NO" "ONE").2 ≠ none ∧
    (OnStartedLeading sampleConfig
      (replyFails (Cmd.ClientKillByFilter ["TYPE", "normal"]))).outcome.isCancelled = true :=
  ⟨by decide, Or.inr (by decide),
    (setReplicaOf_step_failure sampleConfig (replyFails (Cmd.ClientKillByFilter ["TYPE", "normal"]))
      ReplicationDirective.BecomePrimary (Cmd.ClientKillByFilter ["TYPE", "normal"])
      (by decide) (Or.inr (by decide))).1,
    ((setReplicaOf_step_failure sampleConfig (replyFails (Cmd.ClientKillByFilter ["TYPE", "normal"]))
      ReplicationDirective.BecomePrimary (Cmd.ClientKillByFilter ["TYPE", "normal"])
      (by decide) (Or.inr (by decide))).2.1 rfl rfl).1⟩


/-! ## The relay over a sequence of events -/

/-- After `klog.Fatal` no input changes the state. -/
theorem run_of_exited (cfg : Config) (s : State) (inputs : List Input)
    (h : s.exited = true) : run cfg s inputs = s := by
  induction inputs with
  | nil => rfl
  | cons i rest ih =>
    have hstep : step cfg s i = s := by
      cases i with
      | event e env => simp [step, h]
      | waitReturned err => simp [step, h]
    show run cfg (step cfg s i) rest = s
    rw [hstep]
    exact ih

/-- The callback `OnStartedLeading` never ends in `klog.Fatal`. -/
theorem OnStartedLeading_not_fatal (cfg : Config) (env : Env) :
    (OnStartedLeading cfg env).outcome.isFatal = false := by
  rw [OnStartedLeading_eq]
  cases env.patchErr with
  | some e => rfl
  | none =>
    cases (setReplicaOf env "NO" "ONE").2 with
    | some e => rfl
    | none =>
      cases env.startErr with
      | some e => rfl
      | none => rfl

/-- An event that is fully processed did not exit the process. -/
theorem not_fatal_of_fullyProcessed (cfg : Config) (p : LeaderEvent × Env)
    (h : fullyProcessed cfg p = true) : (handle cfg p.1 p.2).outcome.isFatal = false := by
  unfold fullyProcessed at h
  cases ho : (handle cfg p.1 p.2).outcome with
  | returned => rfl
  | cancelled msg => rfl
  | fatal msg => rw [ho] at h; exact absurd h (by simp [Outcome.isReturned])

/-- An event whose callback exits the process is not fully processed. -/
theorem not_fullyProcessed_of_fatal (cfg : Config) (p : LeaderEvent × Env)
    (h : (handle cfg p.1 p.2).outcome.isFatal = true) : fullyProcessed cfg p = false := by
  cases hf : fullyProcessed cfg p with
  | false => rfl
  | true =>
    rw [not_fatal_of_fullyProcessed cfg p hf] at h
    exact absurd h (by decide)

/-- The relay after the callback of an `Acquired` or `Lost` event: a fully processed
`Acquired` leaves it running, a fully processed `Lost` leaves it stopped, and a callback
that did not run to its end leaves it as it was. -/
theorem relay_after_handle (cfg : Config) (p : LeaderEvent × Env) (r : RelayState)
    (hp : p.1 = LeaderEvent.Acquired ∨ p.1 = LeaderEvent.Lost) :
    (handle cfg p.1 p.2).calls.foldl relayAfter r =
      if fullyProcessed cfg p = true then relayTarget r (some p.1) else r := by
  obtain ⟨e, env⟩ := p
  simp only at hp
  unfold fullyProcessed
  rcases hp with rfl | rfl
  · simp only [handle]
    rw [OnStartedLeading_eq]
    cases hpe : env.patchErr with
    | some err => simp [updateLeaderService, relayAfter, Outcome.isReturned]
    | none =>
      cases hs : (setReplicaOf env "NO" "ONE").2 with
      | some err =>
        simp [updateLeaderService, relayAfter, foldl_relayAfter_setReplicaOf,
          Outcome.isReturned]
      | none =>
        cases hst : env.startErr with
        | some err =>
          simp [updateLeaderService, relayAfter, foldl_relayAfter_setReplicaOf,
            Outcome.isReturned]
        | none =>
          simp [updateLeaderService, relayAfter, foldl_relayAfter_setReplicaOf, relayTarget,
            Outcome.isReturned]
  · simp only [handle, OnStoppedLeading]
    cases hc : env.closeErr with
    | some err => simp [relayAfter, Outcome.isReturned]
    | none => simp [relayAfter, relayTarget, Outcome.isReturned]

/-- The most recent fully processed event is one of the events of the sequence. -/
theorem lastFullyProcessed_mem (cfg : Config) (es : List (LeaderEvent × Env)) (e : LeaderEvent)
    (h : lastFullyProcessed cfg es = some e) : ∃ p ∈ es, p.1 = e := by
  have hsub : ∀ l : List (LeaderEvent × Env), ∀ p ∈ processed cfg l, p ∈ l := by
    intro l
    induction l with
    | nil => intro p hp; simp [processed] at hp
    | cons q qs ih =>
      intro p hp
      unfold processed at hp
      split at hp
      · rw [List.mem_singleton.mp hp]
        exact List.mem_cons_self _ _
      · rcases List.mem_cons.mp hp with rfl | hmem
        · exact List.mem_cons_self _ _
        · exact List.mem_cons_of_mem _ (ih p hmem)
  have hmem := List.mem_of_getLast?_eq_some h
  obtain ⟨p, hp, rfl⟩ := List.mem_map.mp hmem
  exact ⟨p, hsub es p (List.mem_of_mem_filter hp), rfl⟩

/-- The most recent fully processed event of a sequence with one more event in front. -/
theorem lastFullyProcessed_cons (cfg : Config) (p : LeaderEvent × Env)
    (ps : List (LeaderEvent × Env)) :
    lastFullyProcessed cfg (p :: ps) =
      if (handle cfg p.1 p.2).outcome.isFatal = true then none
      else if fullyProcessed cfg p = true then some ((lastFullyProcessed cfg ps).getD p.1)
      else lastFullyProcessed cfg ps := by
  unfold lastFullyProcessed
  by_cases hf : (handle cfg p.1 p.2).outcome.isFatal = true
  · have hnp := not_fullyProcessed_of_fatal cfg p hf
    simp [processed, hf, hnp]
  · by_cases hfp : fullyProcessed cfg p = true
    · simp [processed, hf, hfp, List.getLast?_cons]
    · simp [processed, hf, hfp]

/-- The relay after a sequence of `Acquired` and `Lost` events, from any state of a
running process. -/
theorem relay_after_run (cfg : Config) (es : List (LeaderEvent × Env)) :
    ∀ s : State, s.exited = false →
      (∀ p ∈ es, p.1 = LeaderEvent.Acquired ∨ p.1 = LeaderEvent.Lost) →
      (run cfg s (es.map toInput)).relay = relayTarget s.relay (lastFullyProcessed cfg es) := by
  induction es with
  | nil => intro s _ _; rfl
  | cons p ps ih =>
    intro s hs hes
    have hp := hes p (List.mem_cons_self _ _)
    have hps : ∀ q ∈ ps, q.1 = LeaderEvent.Acquired ∨ q.1 = LeaderEvent.Lost :=
      fun q hq => hes q (List.mem_cons_of_mem _ hq)
    have hstep : step cfg s (toInput p) = s.apply (handle cfg p.1 p.2) := by
      simp [step, toInput, hs]
    have hrun : run cfg s ((p :: ps).map toInput)
        = run cfg (s.apply (handle cfg p.1 p.2)) (ps.map toInput) := by
      show run cfg (step cfg s (toInput p)) (ps.map toInput) = _
      rw [hstep]
    rw [hrun, lastFullyProcessed_cons]
    have hrelay : (s.apply (handle cfg p.1 p.2)).relay
        = if fullyProcessed cfg p = true then relayTarget s.relay (some p.1) else s.relay :=
      relay_after_handle cfg p s.relay hp
    by_cases hf : (handle cfg p.1 p.2).outcome.isFatal = true
    · have hex : (s.apply (handle cfg p.1 p.2)).exited = true := hf
      rw [run_of_exited cfg _ _ hex, hrelay, not_fullyProcessed_of_fatal cfg p hf, if_pos hf]
      simp [relayTarget]
    · have hex : (s.apply (handle cfg p.1 p.2)).exited = false := by
        simpa using hf
      rw [ih _ hex hps, hrelay, if_neg hf]
      by_cases hfp : fullyProcessed cfg p = true
      · rw [if_pos hfp, if_pos hfp]
        cases hl : lastFullyProcessed cfg ps with
        | none => rfl
        | some e =>
          obtain ⟨q, hq, hqe⟩ := lastFullyProcessed_mem cfg ps e hl
          rcases hps q hq with h1 | h1
          · rw [← hqe, h1]; rfl
          · rw [← hqe, h1]; rfl
      · rw [if_neg hfp, if_neg hfp]

/-- When no callback exits the process, every event is processed. -/
theorem processed_eq_self (cfg : Config) (es : List (LeaderEvent × Env))
    (h : ∀ p ∈ es, fullyProcessed cfg p = true) : processed cfg es = es := by
  induction es with
  | nil => rfl
  | cons p ps ih =>
    unfold processed
    rw [not_fatal_of_fullyProcessed cfg p (h p (List.mem_cons_self _ _))]
    simp only [Bool.false_eq_true, if_false]
    rw [ih (fun q hq => h q (List.mem_cons_of_mem _ hq))]

/-- C1: for every finite sequence of `Acquired` and `Lost` events, each handled under
an arbitrary behaviour of the collaborators and processed one at a time from the initial
state (relay stopped), the relay is running afterwards if and only if the most recent
fully processed event is an `Acquired`; an event is fully processed when its callback
ran all its steps. In particular, when every callback runs all its steps, the relay is
running if and only if the last event of the sequence is `Acquired`. -/
theorem relay_running_iff_last_acquired (cfg : Config) (es : List (LeaderEvent × Env))
    (hes : ∀ p ∈ es, p.1 = LeaderEvent.Acquired ∨ p.1 = LeaderEvent.Lost) :
    ((run cfg State.init (es.map toInput)).relay = RelayState.Running ↔
      lastFullyProcessed cfg es = some LeaderEvent.Acquired) ∧
    ((∀ p ∈ es, fullyProcessed cfg p = true) →
      ((run cfg State.init (es.map toInput)).relay = RelayState.Running ↔
        (es.map Prod.fst).getLast? = some LeaderEvent.Acquired)) := by
  have hmain : (run cfg State.init (es.map toInput)).relay = RelayState.Running ↔
      lastFullyProcessed cfg es = some LeaderEvent.Acquired := by
    rw [relay_after_run cfg es State.init rfl hes]
    cases hl : lastFullyProcessed cfg es with
    | none => simp [relayTarget, State.init]
    | some e =>
      obtain ⟨q, hq, hqe⟩ := lastFullyProcessed_mem cfg es e hl
      rcases hes q hq with h1 | h1
      · rw [← hqe, h1]; simp [relayTarget]
      · rw [← hqe, h1]; simp [relayTarget, State.init]
  refine ⟨hmain, ?_⟩
  intro hall
  rw [hmain]
  unfold lastFullyProcessed
  rw [processed_eq_self cfg es hall, List.filter_eq_self.mpr hall]

/-- Witness for C1: `Acquired`, `Lost`, then an `Acquired` whose discovery update fails,
then a successful `Acquired`: the relay is running. -/
theorem relay_running_iff_last_acquired_witness :
    (∀ p ∈ [(LeaderEvent.Acquired, Env.ok), (LeaderEvent.Lost, Env.ok),
            (LeaderEvent.Acquired, patchFails), (LeaderEvent.Acquired, Env.ok)],
      p.1 = LeaderEvent.Acquired ∨ p.1 = LeaderEvent.Lost) ∧
    ((run sampleConfig State.init
        ([(LeaderEvent.Acquired, Env.ok), (LeaderEvent.Lost, Env.ok),
          (LeaderEvent.Acquired, patchFails), (LeaderEvent.Acquired, Env.ok)].map toInput)).relay
        = RelayState.Running ↔
      lastFullyProcessed sampleConfig
        [(LeaderEvent.Acquired, Env.ok), (LeaderEvent.Lost, Env.ok),
         (LeaderEvent.Acquired, patchFails), (LeaderEvent.Acquired, Env.ok)]
        = some LeaderEvent.Acquired) :=
  ⟨by simp,
    (relay_running_iff_last_acquired sampleConfig
      [(LeaderEvent.Acquired, Env.ok), (LeaderEvent.Lost, Env.ok),
       (LeaderEvent.Acquired, patchFails), (LeaderEvent.Acquired, Env.ok)] (by simp)).1⟩


/-! ## The asynchronous failure signal of the relay -/

/-- A fully processed `Acquired` leaves a running process with the relay running and
one more monitoring goroutine. -/
theorem apply_OnStartedLeading_of_fullyProcessed (cfg : Config) (s : State) (env : Env)
    (h : fullyProcessed cfg (LeaderEvent.Acquired, env) = true) :
    (s.apply (OnStartedLeading cfg env)).relay = RelayState.Running ∧
    (s.apply (OnStartedLeading cfg env)).exited = false ∧
    (s.apply (OnStartedLeading cfg env)).monitors = s.monitors + 1 := by
  have hrelay := relay_after_handle cfg (LeaderEvent.Acquired, env) s.relay (Or.inl rfl)
  rw [if_pos h] at hrelay
  refine ⟨hrelay, OnStartedLeading_not_fatal cfg env, ?_⟩
  have h2 : (OnStartedLeading cfg env).outcome.isReturned = true := h
  have hmon : (OnStartedLeading cfg env).outcome.isReturned = true →
      (OnStartedLeading cfg env).monitor = true := by
    rw [OnStartedLeading_eq]
    cases env.patchErr with
    | some e => intro h3; simp [Outcome.isReturned] at h3
    | none =>
      cases (setReplicaOf env "NO" "ONE").2 with
      | some e => intro h3; simp [Outcome.isReturned] at h3
      | none =>
        cases env.startErr with
        | some e => intro h3; simp [Outcome.isReturned] at h3
        | none => intro _; rfl
  simp [State.apply, hmon h2]

/-- A fully processed `Lost` leaves a running process with the relay stopped and the
monitoring goroutines as they were. -/
theorem apply_OnStoppedLeading_of_fullyProcessed (cfg : Config) (s : State) (env : Env)
    (h : fullyProcessed cfg (LeaderEvent.Lost, env) = true) :
    (s.apply (OnStoppedLeading env)).relay = RelayState.Stopped ∧
    (s.apply (OnStoppedLeading env)).exited = false ∧
    (s.apply (OnStoppedLeading env)).monitors = s.monitors := by
  have hrelay := relay_after_handle cfg (LeaderEvent.Lost, env) s.relay (Or.inr rfl)
  rw [if_pos h] at hrelay
  have hfatal := not_fatal_of_fullyProcessed cfg (LeaderEvent.Lost, env) h
  have hmon : (OnStoppedLeading env).monitor = false := by
    unfold OnStoppedLeading
    cases env.closeErr with
    | some e => rfl
    | none => rfl
  refine ⟨hrelay, hfatal, ?_⟩
  simp [State.apply, hmon]

/-- C7, as stated, fails: on the sample configuration the relay is started by an
`Acquired` and stopped cleanly by a `Lost`, so it is stopped and the process is running,
and the failure result of `proxy.Wait()` observed after that still exits the process. -/
theorem wait_failure_after_stop_not_ignored :
    (run sampleConfig State.init
      [Input.event LeaderEvent.Acquired Env.ok, Input.event LeaderEvent.Lost Env.ok]).relay
      = RelayState.Stopped ∧
    (run sampleConfig State.init
      [Input.event LeaderEvent.Acquired Env.ok, Input.event LeaderEvent.Lost Env.ok]).exited
      = false ∧
    (run sampleConfig State.init
      [Input.event LeaderEvent.Acquired Env.ok, Input.event LeaderEvent.Lost Env.ok,
       Input.waitReturned (some "use of closed network connection")]).exited = true := by
  refine ⟨by decide, by decide, by decide⟩

/-- C7 (amended): if the relay was started by a fully processed `Acquired`, a non-nil
result of `proxy.Wait()` observed by the monitoring goroutine exits the process whatever
the relay state is when it is observed: while the relay is running, and also after a fully
processed `Lost` has stopped it. A nil result does not exit the process. -/
theorem wait_failure_fatal_in_any_relay_state (cfg : Config) (s : State) (a l : Env)
    (err : String) (hlive : s.exited = false)
    (ha : fullyProcessed cfg (LeaderEvent.Acquired, a) = true)
    (hl : fullyProcessed cfg (LeaderEvent.Lost, l) = true) :
    ((run cfg s [Input.event LeaderEvent.Acquired a]).relay = RelayState.Running ∧
      (run cfg s [Input.event LeaderEvent.Acquired a,
        Input.waitReturned (some err)]).exited = true) ∧
    ((run cfg s [Input.event LeaderEvent.Acquired a,
        Input.event LeaderEvent.Lost l]).relay = RelayState.Stopped ∧
      (run cfg s [Input.event LeaderEvent.Acquired a,
        Input.event LeaderEvent.Lost l]).exited = false ∧
      (run cfg s [Input.event LeaderEvent.Acquired a, Input.event LeaderEvent.Lost l,
        Input.waitReturned (some err)]).exited = true ∧
      (run cfg s [Input.event LeaderEvent.Acquired a, Input.event LeaderEvent.Lost l,
        Input.waitReturned none]).exited = false) := by
  obtain ⟨hr1, he1, hm1⟩ := apply_OnStartedLeading_of_fullyProcessed cfg s a ha
  obtain ⟨hr2, he2, hm2⟩ :=
    apply_OnStoppedLeading_of_fullyProcessed cfg (s.apply (OnStartedLeading cfg a)) l hl
  have hm2pos : (State.apply (s.apply (OnStartedLeading cfg a)) (OnStoppedLeading l)).monitors
      ≠ 0 := by
    rw [hm2, hm1]
    exact Nat.succ_ne_zero _
  have hm1pos : (s.apply (OnStartedLeading cfg a)).monitors ≠ 0 := by
    rw [hm1]
    exact Nat.succ_ne_zero _
  refine ⟨⟨?_, ?_⟩, ?_, ?_, ?_, ?_⟩
  · simpa [run, step, hlive, handle] using hr1
  · simp [run, step, hlive, handle, he1, hm1pos, monitorWait, Outcome.isFatal]
  · simpa [run, step, hlive, handle, he1] using hr2
  · simpa [run, step, hlive, handle, he1] using he2
  · simp [run, step, hlive, handle, he1, he2, hm2pos, monitorWait, Outcome.isFatal]
  · simp [run, step, hlive, handle, he1, he2, hm2pos, monitorWait, Outcome.isFatal]

/-- Witness for C7 (amended), on the sample configuration with every call succeeding. -/
theorem wait_failure_fatal_in_any_relay_state_witness :
    State.init.exited = false ∧
    fullyProcessed sampleConfig (LeaderEvent.Acquired, Env.ok) = true ∧
    fullyProcessed sampleConfig (LeaderEvent.Lost, Env.ok) = true ∧
    (run sampleConfig State.init
      [Input.event LeaderEvent.Acquired Env.ok, Input.event LeaderEvent.Lost Env.ok,
       Input.waitReturned (some "closed")]).exited = true :=
  ⟨rfl, by decide, by decide,
    (wait_failure_fatal_in_any_relay_state sampleConfig State.init Env.ok Env.ok "closed" rfl
      (by decide) (by decide)).2.2.2.1⟩

/-! ## Start-up addresses and the discovery patch -/

/-- C8 fails on the code: with `-redis-port 6380` and `-leader-port 6378` the start-up
checks pass, the store control channel connects to `localhost:6380` and the relay listens
on `:6378`, but the relay forwards to `localhost:6379`, not to the configured store port. -/
theorem main_proxy_upstream_not_configured_port :
    ∃ s, main sampleFlags (Except.ok "pod-0") "default" = Except.ok s ∧
      s.redisAddr = "localhost:6380" ∧
      s.proxyListen = ":6378" ∧
      s.proxyUpstream = "localhost:6379" ∧
      s.proxyUpstream ≠ "localhost:" ++ redisPortStr s.cfg :=
  ⟨_, rfl, by decide, by decide, by decide, by decide⟩

/-- C9, as stated, fails: the request of `updateLeaderService` is of type
`types.JSONPatchType` (an RFC 6902 list of operations), so it is not a merge-patch. -/
theorem updateLeaderService_not_merge_patch :
    (updateLeaderService Env.ok "default" "redis-leader" "pod-1").1 =
      [Call.servicesPatch "default" "redis-leader" PatchType.JSONPatchType
        [{ Op := "replace", Path := "/spec/selector",
           Value := [("statefulset.kubernetes.io/pod-name", "pod-1")] }] none] ∧
    ¬ ∃ data err, (updateLeaderService Env.ok "default" "redis-leader" "pod-1").1 =
      [Call.servicesPatch "default" "redis-leader" PatchType.MergePatchType data err] := by
  refine ⟨by decide, ?_⟩
  rintro ⟨data, err, h⟩
  simp [updateLeaderService] at h

/-- C9 (amended): for every record name and pod identity, `updateLeaderService` makes
exactly one request, a JSON Patch (RFC 6902) addressed to that record name in the
namespace of the service interface, whose document is the single operation
`replace /spec/selector` with the selector `statefulset.kubernetes.io/pod-name: pod`;
no operation of the document names another path, and the function returns the result of
the request. -/
theorem updateLeaderService_single_replace (env : Env) (ns svc pod : String) :
    (updateLeaderService env ns svc pod).1 =
      [Call.servicesPatch ns svc PatchType.JSONPatchType
        [{ Op := "replace", Path := "/spec/selector",
           Value := [("statefulset.kubernetes.io/pod-name", pod)] }] env.patchErr] ∧
    (updateLeaderService env ns svc pod).2 = env.patchErr ∧
    (∀ c ∈ (updateLeaderService env ns svc pod).1, ∀ op ∈ c.patchOps,
      op.Op = "replace" ∧ op.Path = "/spec/selector") := by
  refine ⟨rfl, rfl, ?_⟩
  intro c hc op hop
  simp only [updateLeaderService, List.mem_singleton] at hc
  subst hc
  simp only [Call.patchOps, List.mem_singleton] at hop
  subst hop
  exact ⟨rfl, rfl⟩

end RedisElection
